import Mathlib

/-!
Shallow embedding of the real-time notification client of
`src/lib/api/websocket-client.ts` (class `WebSocketClient` and the
module-level singleton factory `getWebSocketClient`).

Modelling choices:
* The mutable fields of the `WebSocketClient` instance become the fields of
  `ClientState`; the socket.io `Socket` handle is modelled by `SocketHandle`
  (an identifier for the transport-open call that created it plus its
  `connected` flag).
* Asynchronous `connect()` is split into `connectStart` (the synchronous
  prefix: the `socket?.connected` guard, the JWT-token guard, the `io(...)`
  call that opens a new transport) and the handshake resolutions
  `handshakeSuccess` / `handshakeFailure` / `handshakeTimeout`, which run
  the event handlers installed by `setupEventHandlers` together with the
  resolution of the promise awaited inside `connect()` (including the
  `catch` block of `connect()`).
* `setTimeout` scheduling is modelled by `reconnectTimer : Option Nat`
  holding the delay of the live pending timer; `timerFire` models the timer
  callback of `scheduleReconnect` (increment `reconnectAttempts`, call
  `connect()`, swallow its error).
* Instrumentation fields (`openCount`, `outbound`, `emitted`,
  `attemptDelays`) record observable effects: transport-open (`io`) calls,
  outbound socket messages (`socket.emit`), lifecycle events dispatched to
  listeners (`emitToListeners`), and the delay of each reconnect timer that
  actually fired.
* Listener callbacks are identified by `Nat` ids; the dispatch loop of
  `emitToListeners` (for-each with a per-listener try/catch) is embedded as
  `emitToListenersRun`, parameterised by which listeners throw.
-/

namespace WSClient

/-- Connection states, from `type ConnectionState` in the source. -/
inductive ConnectionState
  | disconnected
  | connecting
  | connected
  | error
deriving DecidableEq, Repr

/-- Fully resolved configuration, from `Required<WebSocketConfig>`. -/
structure WSConfig where
  autoReconnect : Bool
  maxReconnectAttempts : Nat
  reconnectInterval : Nat
  debug : Bool
deriving DecidableEq, Repr

/-- Source constant `WebSocketClient.DEFAULT_CONFIG`. -/
def DEFAULT_CONFIG : WSConfig :=
  { autoReconnect := true
    maxReconnectAttempts := 5
    reconnectInterval := 3000
    debug := false }

/-- Consumer-supplied configuration with optional fields, from
`interface WebSocketConfig`. -/
structure WebSocketConfigOpt where
  autoReconnect : Option Bool := none
  maxReconnectAttempts : Option Nat := none
  reconnectInterval : Option Nat := none
  debug : Option Bool := none
deriving DecidableEq, Repr

/-- The constructor merge `{ ...DEFAULT_CONFIG, ...config }`. -/
def mergeConfig (c : WebSocketConfigOpt) : WSConfig :=
  { autoReconnect := c.autoReconnect.getD DEFAULT_CONFIG.autoReconnect
    maxReconnectAttempts := c.maxReconnectAttempts.getD DEFAULT_CONFIG.maxReconnectAttempts
    reconnectInterval := c.reconnectInterval.getD DEFAULT_CONFIG.reconnectInterval
    debug := c.debug.getD DEFAULT_CONFIG.debug }

/-- Payload of `subscribe` / `unsubscribe`, from `interface SubscribeEvent`. -/
structure SubscribeEvent where
  userId : String
  emailAddress : Option String
deriving DecidableEq, Repr

/-- Outbound messages sent via `this.socket.emit(...)`. -/
inductive OutMsg
  | subscribeMsg (p : SubscribeEvent)
  | unsubscribeMsg (p : SubscribeEvent)
  | statusMsg
  | testMsg
deriving DecidableEq, Repr

/-- The socket.io `Socket` handle: `sid` identifies which transport-open
(`io(...)`) call created it, `connected` mirrors `socket.connected`. -/
structure SocketHandle where
  sid : Nat
  connected : Bool
deriving DecidableEq, Repr

/-- Listener registry: the `Map<string, Set<EventListener>>` of the source,
with listeners identified by `Nat` ids; the value list has JS `Set`
insertion-order semantics (adding an existing member is a no-op). -/
def ListenerReg : Type := List (String × List Nat)

instance : DecidableEq ListenerReg := by
  unfold ListenerReg
  infer_instance

/-- Lookup `this.eventListeners.get(event)`; a missing entry yields the
empty listener list. -/
def lookupListeners : List (String × List Nat) → String → List Nat
  | [], _ => []
  | (k, v) :: rest, e => if k = e then v else lookupListeners rest e

/-- Update `this.eventListeners.set(event, ls)`: replace the entry if
present, insert it otherwise. -/
def setReg : List (String × List Nat) → String → List Nat → List (String × List Nat)
  | [], e, ls => [(e, ls)]
  | (k, v) :: rest, e, ls =>
      if k = e then (e, ls) :: rest else (k, v) :: setReg rest e ls

/-- Deletion `this.eventListeners.delete(event)`. -/
def eraseEntry : List (String × List Nat) → String → List (String × List Nat)
  | [], _ => []
  | (k, v) :: rest, e => if k = e then rest else (k, v) :: eraseEntry rest e

/-- Test `this.eventListeners.has(event)`. -/
def hasEvent : List (String × List Nat) → String → Bool
  | [], _ => false
  | (k, _) :: rest, e => if k = e then true else hasEvent rest e

/-- Body of `WebSocketClient.on`: ensure the entry exists, then `Set.add`
(no-op when the listener is already a member). -/
def addListener (reg : List (String × List Nat)) (e : String) (l : Nat) :
    List (String × List Nat) :=
  let ls := lookupListeners reg e
  setReg reg e (if l ∈ ls then ls else ls ++ [l])

/-- Body of `WebSocketClient.off`: `Set.delete`, dropping the map entry when
the set becomes empty. -/
def removeListener (reg : List (String × List Nat)) (e : String) (l : Nat) :
    List (String × List Nat) :=
  if hasEvent reg e then
    let ls := (lookupListeners reg e).erase l
    if ls = [] then eraseEntry reg e else setReg reg e ls
  else reg

/-- The full client state: the mutable fields of the `WebSocketClient`
instance plus instrumentation logs of its observable effects. -/
structure ClientState where
  socket : Option SocketHandle
  jwtToken : Option String
  connectionState : ConnectionState
  config : WSConfig
  reconnectAttempts : Nat
  reconnectTimer : Option Nat
  eventListeners : List (String × List Nat)
  isManualDisconnect : Bool
  openCount : Nat
  outbound : List OutMsg
  emitted : List String
  attemptDelays : List Nat
deriving DecidableEq, Repr

/-- Constructor `new WebSocketClient(config)` with `config` already merged;
`storedToken` is `getStoredToken()` (the persisted `jwt_token`, if any). -/
def initState (cfg : WSConfig) (storedToken : Option String) : ClientState :=
  { socket := none
    jwtToken := storedToken
    connectionState := ConnectionState.disconnected
    config := cfg
    reconnectAttempts := 0
    reconnectTimer := none
    eventListeners := []
    isManualDisconnect := false
    openCount := 0
    outbound := []
    emitted := []
    attemptDelays := [] }

/-- Method `setToken`: store the JWT for the next connect attempt. -/
def setToken (s : ClientState) (t : String) : ClientState :=
  { s with jwtToken := some t }

/-- Check `this.socket?.connected === true`. -/
def socketConnected (s : ClientState) : Bool :=
  match s.socket with
  | some h => h.connected
  | none => false

/-- Record one `emitToListeners(name, ...)` dispatch in the lifecycle log. -/
def recordEmit (s : ClientState) (e : String) : ClientState :=
  { s with emitted := s.emitted ++ [e] }

/-- Method `clearReconnectTimer`: cancel the pending reconnect timer. -/
def clearReconnectTimer (s : ClientState) : ClientState :=
  { s with reconnectTimer := none }

/-- Method `scheduleReconnect`: at the attempt cap, emit `max_reconnect_reached`
and schedule nothing; otherwise clear any pending timer and schedule a new
one with delay `reconnectInterval * (reconnectAttempts + 1)`. -/
def scheduleReconnect (s : ClientState) : ClientState :=
  if s.config.maxReconnectAttempts ≤ s.reconnectAttempts then
    recordEmit s "max_reconnect_reached"
  else
    let s1 := clearReconnectTimer s
    { s1 with
        reconnectTimer :=
          some (s1.config.reconnectInterval * (s1.reconnectAttempts + 1)) }

/-- The `disconnect` socket-event handler installed by `setupEventHandlers`,
run when the transport closes: mark the socket disconnected, set state,
emit `disconnected`, and schedule a reconnect unless auto-reconnect is off
or the closure was a manual disconnect. -/
def onDisconnectEvent (s : ClientState) : ClientState :=
  let s1 := { s with
      connectionState := ConnectionState.disconnected
      socket := s.socket.map (fun h : SocketHandle => { h with connected := false }) }
  let s2 := recordEmit s1 "disconnected"
  if s2.config.autoReconnect && !s2.isManualDisconnect then
    scheduleReconnect s2
  else s2

/-- Method `WebSocketClient.disconnect()`: set the manual-disconnect flag, cancel
the reconnect timer, close the socket (which fires its `disconnect` handler)
and null it, then set state `disconnected` and reset the attempt counter. -/
def disconnect (s : ClientState) : ClientState :=
  let s1 := { s with isManualDisconnect := true }
  let s2 := clearReconnectTimer s1
  let s3 :=
    match s2.socket with
    | some _ => { onDisconnectEvent s2 with socket := none }
    | none => s2
  { s3 with
      connectionState := ConnectionState.disconnected
      reconnectAttempts := 0 }

/-- Result of the synchronous prefix of `connect()`. -/
inductive ConnectResult
  | alreadyConnected
  | noToken
  | started
deriving DecidableEq, Repr

/-- Errors `connect()` can reject with. -/
inductive ConnectError
  | authRequired
  | handshakeFailed
  | timedOut
deriving DecidableEq, Repr

/-- How one connect attempt's handshake resolves. -/
inductive HandshakeOutcome
  | success
  | failure
  | timeout
deriving DecidableEq, Repr

/-- Synchronous prefix of `connect()`: the `socket?.connected` early return,
the JWT guard (`throw new Error("JWT token required...")`), then state
`connecting`, clearing the manual flag, and the `io(...)` call that opens a
fresh transport (counted in `openCount`). -/
def connectStart (s : ClientState) : ClientState × ConnectResult :=
  if socketConnected s then (s, ConnectResult.alreadyConnected)
  else
    match s.jwtToken with
    | none => (s, ConnectResult.noToken)
    | some _ =>
        let s1 := { s with
            connectionState := ConnectionState.connecting
            isManualDisconnect := false }
        let s2 := { s1 with
            openCount := s1.openCount + 1
            socket := some { sid := s1.openCount + 1, connected := false } }
        (s2, ConnectResult.started)

/-- The `connect` socket event: the transport comes up, then the handler
installed by `setupEventHandlers` runs (state `connected`, attempt counter
reset, timer cleared, `connected` lifecycle event), and the awaited promise
resolves. -/
def handshakeSuccess (s : ClientState) : ClientState :=
  let s1 := { s with
      socket := s.socket.map (fun h : SocketHandle => { h with connected := true }) }
  let s2 := { s1 with
      connectionState := ConnectionState.connected
      reconnectAttempts := 0 }
  let s3 := clearReconnectTimer s2
  recordEmit s3 "connected"

/-- The `connect_error` socket event: first the handler installed by
`setupEventHandlers` runs (state `error`, `error` lifecycle event, a
`scheduleReconnect` call), then the awaited promise rejects and the `catch`
block of `connect()` runs (state `error` again and a second
`scheduleReconnect` call) before rethrowing. -/
def handshakeFailure (s : ClientState) : ClientState :=
  let s1 := { s with connectionState := ConnectionState.error }
  let s2 := recordEmit s1 "error"
  let s3 :=
    if s2.config.autoReconnect && !s2.isManualDisconnect then
      scheduleReconnect s2
    else s2
  let s4 := { s3 with connectionState := ConnectionState.error }
  if s4.config.autoReconnect && !s4.isManualDisconnect then
    scheduleReconnect s4
  else s4

/-- The 15s connect timeout fires with no socket event: only the promise
rejects, so only the `catch` block of `connect()` runs. -/
def handshakeTimeout (s : ClientState) : ClientState :=
  let s1 := { s with connectionState := ConnectionState.error }
  if s1.config.autoReconnect && !s1.isManualDisconnect then
    scheduleReconnect s1
  else s1

/-- One whole `connect()` call: the synchronous prefix followed by the
handshake resolution; the second component is the error the returned
promise rejects with, if any. -/
def connectRun (s : ClientState) (o : HandshakeOutcome) :
    ClientState × Option ConnectError :=
  match connectStart s with
  | (s1, ConnectResult.alreadyConnected) => (s1, none)
  | (s1, ConnectResult.noToken) => (s1, some ConnectError.authRequired)
  | (s1, ConnectResult.started) =>
      match o with
      | HandshakeOutcome.success => (handshakeSuccess s1, none)
      | HandshakeOutcome.failure =>
          (handshakeFailure s1, some ConnectError.handshakeFailed)
      | HandshakeOutcome.timeout =>
          (handshakeTimeout s1, some ConnectError.timedOut)

/-- The reconnect timer callback: when a timer is pending it fires, the
attempt counter is incremented, the fired delay is logged, and `connect()`
runs with its rejection caught and only logged. -/
def timerFire (s : ClientState) (o : HandshakeOutcome) : ClientState :=
  match s.reconnectTimer with
  | none => s
  | some d =>
      let s1 := { s with
          reconnectTimer := none
          attemptDelays := s.attemptDelays ++ [d] }
      let s2 := { s1 with reconnectAttempts := s1.reconnectAttempts + 1 }
      (connectRun s2 o).1

/-- Method `WebSocketClient.subscribe`: throws `WebSocket not connected` unless the
socket is connected, otherwise emits the outbound `subscribe` message.
The second component records whether the call threw. The descriptor is NOT
stored anywhere on the client. -/
def subscribe (s : ClientState) (p : SubscribeEvent) : ClientState × Bool :=
  if socketConnected s then
    ({ s with outbound := s.outbound ++ [OutMsg.subscribeMsg p] }, false)
  else (s, true)

/-- Method `WebSocketClient.unsubscribe`, symmetric to `subscribe`. -/
def unsubscribe (s : ClientState) (p : SubscribeEvent) : ClientState × Bool :=
  if socketConnected s then
    ({ s with outbound := s.outbound ++ [OutMsg.unsubscribeMsg p] }, false)
  else (s, true)

/-- Method `WebSocketClient.on`: register a listener. -/
def onEvent (s : ClientState) (e : String) (l : Nat) : ClientState :=
  { s with eventListeners := addListener s.eventListeners e l }

/-- Method `WebSocketClient.off`: remove a listener. -/
def offEvent (s : ClientState) (e : String) (l : Nat) : ClientState :=
  { s with eventListeners := removeListener s.eventListeners e l }

/-- Method `WebSocketClient.removeAllListeners`. -/
def removeAllListeners (s : ClientState) (e : Option String) : ClientState :=
  match e with
  | some ev => { s with eventListeners := eraseEntry s.eventListeners ev }
  | none => { s with eventListeners := [] }

/-- One listener invocation: the callback either returns or throws,
according to the behaviour function. -/
def runListener (behav : Nat → Bool) (l : Nat) : Except String Unit :=
  if behav l then Except.error "listener threw" else Except.ok ()

/-- One iteration of the `listeners.forEach` loop in `emitToListeners`: the
listener is invoked inside try/catch; a thrown error is logged and the loop
continues. The accumulator collects (invoked listeners, logged errors). -/
def dispatchStep (behav : Nat → Bool) (acc : List Nat × List String)
    (l : Nat) : List Nat × List String :=
  match runListener behav l with
  | Except.ok _ => (acc.1 ++ [l], acc.2)
  | Except.error msg => (acc.1 ++ [l], acc.2 ++ [msg])

/-- Method `WebSocketClient.emitToListeners(event, data)`: look up the listener set
for the event and invoke each listener with per-listener try/catch. Returns
(listeners invoked, in order; errors logged). Its return type is a plain
pair: no exception propagates out of the dispatch. -/
def emitToListenersRun (behav : Nat → Bool)
    (reg : List (String × List Nat)) (e : String) : List Nat × List String :=
  (lookupListeners reg e).foldl (dispatchStep behav) ([], [])

/-- Constructor call `new WebSocketClient(config)` with an optional config
object: merge with defaults and read the stored token. -/
def mkClient (cfg : WebSocketConfigOpt) (storedToken : Option String) :
    ClientState :=
  initState (mergeConfig cfg) storedToken

/-- The module-level singleton factory `getWebSocketClient(config?)`:
`inst` is the module variable `webSocketClientInstance` before the call; the
result is (the returned client, the module variable after the call). -/
def getWebSocketClient (inst : Option ClientState)
    (cfg : WebSocketConfigOpt) (storedToken : Option String) :
    ClientState × Option ClientState :=
  match inst with
  | some c => (c, some c)
  | none => (mkClient cfg storedToken, some (mkClient cfg storedToken))

/-- States reachable through the client's public API and transport events,
starting from a freshly constructed client. -/
inductive Reachable : ClientState → Prop
  | init (cfg : WSConfig) (tok : Option String) : Reachable (initState cfg tok)
  | setTok (s : ClientState) (t : String) : Reachable s → Reachable (setToken s t)
  | conn (s : ClientState) (o : HandshakeOutcome) :
      Reachable s → Reachable (connectRun s o).1
  | disc (s : ClientState) : Reachable s → Reachable (disconnect s)
  | closeEvt (s : ClientState) : Reachable s → Reachable (onDisconnectEvent s)
  | timer (s : ClientState) (o : HandshakeOutcome) :
      Reachable s → Reachable (timerFire s o)
  | sub (s : ClientState) (p : SubscribeEvent) :
      Reachable s → Reachable (subscribe s p).1
  | unsub (s : ClientState) (p : SubscribeEvent) :
      Reachable s → Reachable (unsubscribe s p).1
  | onL (s : ClientState) (e : String) (l : Nat) :
      Reachable s → Reachable (onEvent s e l)
  | offL (s : ClientState) (e : String) (l : Nat) :
      Reachable s → Reachable (offEvent s e l)
  | remAll (s : ClientState) (e : Option String) :
      Reachable s → Reachable (removeAllListeners s e)


/-- A client that connected successfully on its first `connect()` call. -/
def connectedClient (cfg : WSConfig) (tok : String) : ClientState :=
  (connectRun (initState cfg (some tok)) HandshakeOutcome.success).1

/-- Fire the pending reconnect timer `n` times, each attempt failing with a
transport `connect_error`. -/
def iterFail : Nat → ClientState → ClientState
  | 0, s => s
  | n + 1, s => iterFail n (timerFire s HandshakeOutcome.failure)

/-- The reconnect-exhaustion scenario: a connected client loses its
transport, then `n` scheduled reconnect attempts all fail. -/
def capTrace (cfg : WSConfig) (tok : String) (n : Nat) : ClientState :=
  iterFail n (onDisconnectEvent (connectedClient cfg tok))

/-- The subscription-replay scenario of spec property P5: connect,
subscribe for `u1`, lose the transport, then the scheduled reconnect
succeeds. -/
def replayScenario : ClientState :=
  timerFire
    (onDisconnectEvent
      ((subscribe (connectedClient DEFAULT_CONFIG "tok")
        { userId := "u1", emailAddress := none }).1))
    HandshakeOutcome.success

/-- A client whose first `connect()` call is still in flight: the
synchronous prefix ran, the handshake has not resolved. -/
def firstConnecting : ClientState :=
  (connectStart (initState DEFAULT_CONFIG (some "tok"))).1

theorem scheduleReconnect_socket (s : ClientState) :
    (scheduleReconnect s).socket = s.socket := by
  unfold scheduleReconnect recordEmit clearReconnectTimer
  split <;> rfl

theorem scheduleReconnect_jwtToken (s : ClientState) :
    (scheduleReconnect s).jwtToken = s.jwtToken := by
  unfold scheduleReconnect recordEmit clearReconnectTimer
  split <;> rfl

theorem scheduleReconnect_outbound (s : ClientState) :
    (scheduleReconnect s).outbound = s.outbound := by
  unfold scheduleReconnect recordEmit clearReconnectTimer
  split <;> rfl

theorem scheduleReconnect_eventListeners (s : ClientState) :
    (scheduleReconnect s).eventListeners = s.eventListeners := by
  unfold scheduleReconnect recordEmit clearReconnectTimer
  split <;> rfl

theorem scheduleReconnect_connectionState (s : ClientState) :
    (scheduleReconnect s).connectionState = s.connectionState := by
  unfold scheduleReconnect recordEmit clearReconnectTimer
  split <;> rfl

theorem scheduleReconnect_reconnectAttempts (s : ClientState) :
    (scheduleReconnect s).reconnectAttempts = s.reconnectAttempts := by
  unfold scheduleReconnect recordEmit clearReconnectTimer
  split <;> rfl

theorem onDisconnectEvent_jwtToken (s : ClientState) :
    (onDisconnectEvent s).jwtToken = s.jwtToken := by
  unfold onDisconnectEvent recordEmit
  dsimp only
  split <;> simp [scheduleReconnect_jwtToken]

theorem onDisconnectEvent_eventListeners (s : ClientState) :
    (onDisconnectEvent s).eventListeners = s.eventListeners := by
  unfold onDisconnectEvent recordEmit
  dsimp only
  split <;> simp [scheduleReconnect_eventListeners]

theorem onDisconnectEvent_outbound (s : ClientState) :
    (onDisconnectEvent s).outbound = s.outbound := by
  unfold onDisconnectEvent recordEmit
  dsimp only
  split <;> simp [scheduleReconnect_outbound]

theorem onDisconnectEvent_socket (s : ClientState) :
    (onDisconnectEvent s).socket
      = s.socket.map (fun h : SocketHandle => { h with connected := false }) := by
  unfold onDisconnectEvent recordEmit
  dsimp only
  split <;> simp [scheduleReconnect_socket]

theorem handshakeSuccess_jwtToken (s : ClientState) :
    (handshakeSuccess s).jwtToken = s.jwtToken := rfl

theorem handshakeSuccess_outbound (s : ClientState) :
    (handshakeSuccess s).outbound = s.outbound := rfl

theorem handshakeSuccess_eventListeners (s : ClientState) :
    (handshakeSuccess s).eventListeners = s.eventListeners := rfl

theorem handshakeFailure_jwtToken (s : ClientState) :
    (handshakeFailure s).jwtToken = s.jwtToken := by
  unfold handshakeFailure recordEmit
  dsimp only
  split <;> (try split) <;> simp [scheduleReconnect_jwtToken]

theorem handshakeFailure_outbound (s : ClientState) :
    (handshakeFailure s).outbound = s.outbound := by
  unfold handshakeFailure recordEmit
  dsimp only
  split <;> (try split) <;> simp [scheduleReconnect_outbound]

theorem handshakeFailure_eventListeners (s : ClientState) :
    (handshakeFailure s).eventListeners = s.eventListeners := by
  unfold handshakeFailure recordEmit
  dsimp only
  split <;> (try split) <;> simp [scheduleReconnect_eventListeners]

theorem handshakeFailure_socket (s : ClientState) :
    (handshakeFailure s).socket = s.socket := by
  unfold handshakeFailure recordEmit
  dsimp only
  split <;> (try split) <;> simp [scheduleReconnect_socket]

theorem handshakeTimeout_jwtToken (s : ClientState) :
    (handshakeTimeout s).jwtToken = s.jwtToken := by
  unfold handshakeTimeout
  dsimp only
  split <;> simp [scheduleReconnect_jwtToken]

theorem handshakeTimeout_outbound (s : ClientState) :
    (handshakeTimeout s).outbound = s.outbound := by
  unfold handshakeTimeout
  dsimp only
  split <;> simp [scheduleReconnect_outbound]

theorem handshakeTimeout_eventListeners (s : ClientState) :
    (handshakeTimeout s).eventListeners = s.eventListeners := by
  unfold handshakeTimeout
  dsimp only
  split <;> simp [scheduleReconnect_eventListeners]

theorem handshakeTimeout_socket (s : ClientState) :
    (handshakeTimeout s).socket = s.socket := by
  unfold handshakeTimeout
  dsimp only
  split <;> simp [scheduleReconnect_socket]

theorem disconnect_socket (s : ClientState) : (disconnect s).socket = none := by
  unfold disconnect clearReconnectTimer
  dsimp only
  split <;> simp_all

theorem disconnect_jwtToken (s : ClientState) :
    (disconnect s).jwtToken = s.jwtToken := by
  unfold disconnect clearReconnectTimer
  dsimp only
  split <;> simp_all [onDisconnectEvent, recordEmit, scheduleReconnect]

theorem disconnect_eventListeners (s : ClientState) :
    (disconnect s).eventListeners = s.eventListeners := by
  unfold disconnect clearReconnectTimer
  dsimp only
  split <;> simp_all [onDisconnectEvent, recordEmit, scheduleReconnect]

theorem disconnect_outbound (s : ClientState) :
    (disconnect s).outbound = s.outbound := by
  unfold disconnect clearReconnectTimer
  dsimp only
  split <;> simp_all [onDisconnectEvent, recordEmit, scheduleReconnect]

theorem disconnect_reconnectTimer (s : ClientState) :
    (disconnect s).reconnectTimer = none := by
  unfold disconnect clearReconnectTimer
  dsimp only
  split <;> simp_all [onDisconnectEvent, recordEmit, scheduleReconnect]

theorem disconnect_connectionState (s : ClientState) :
    (disconnect s).connectionState = ConnectionState.disconnected := rfl

theorem disconnect_reconnectAttempts (s : ClientState) :
    (disconnect s).reconnectAttempts = 0 := rfl

theorem disconnect_isManualDisconnect (s : ClientState) :
    (disconnect s).isManualDisconnect = true := by
  unfold disconnect clearReconnectTimer
  dsimp only
  split <;> simp_all [onDisconnectEvent, recordEmit, scheduleReconnect]

theorem disconnect_config (s : ClientState) : (disconnect s).config = s.config := by
  unfold disconnect clearReconnectTimer
  dsimp only
  split <;> simp_all [onDisconnectEvent, recordEmit, scheduleReconnect]

theorem connectStart_outbound (s : ClientState) :
    (connectStart s).1.outbound = s.outbound := by
  unfold connectStart
  dsimp only
  split
  · rfl
  · cases h : s.jwtToken <;> simp [h]

theorem connectStart_jwtToken (s : ClientState) :
    (connectStart s).1.jwtToken = s.jwtToken := by
  unfold connectStart
  dsimp only
  split
  · rfl
  · cases h : s.jwtToken <;> simp [h]

theorem connectStart_eventListeners (s : ClientState) :
    (connectStart s).1.eventListeners = s.eventListeners := by
  unfold connectStart
  dsimp only
  split
  · rfl
  · cases h : s.jwtToken <;> simp [h]

theorem connectRun_outbound (s : ClientState) (o : HandshakeOutcome) :
    (connectRun s o).1.outbound = s.outbound := by
  unfold connectRun
  cases hcs : connectStart s with
  | mk s1 r =>
    have h1 : s1.outbound = s.outbound := by
      have := connectStart_outbound s
      rw [hcs] at this
      exact this
    cases r <;> cases o <;>
      simp [handshakeSuccess_outbound, handshakeFailure_outbound,
        handshakeTimeout_outbound, h1]

theorem connectRun_jwtToken (s : ClientState) (o : HandshakeOutcome) :
    (connectRun s o).1.jwtToken = s.jwtToken := by
  unfold connectRun
  cases hcs : connectStart s with
  | mk s1 r =>
    have h1 : s1.jwtToken = s.jwtToken := by
      have := connectStart_jwtToken s
      rw [hcs] at this
      exact this
    cases r <;> cases o <;>
      simp [handshakeSuccess_jwtToken, handshakeFailure_jwtToken,
        handshakeTimeout_jwtToken, h1]

theorem connectRun_eventListeners (s : ClientState) (o : HandshakeOutcome) :
    (connectRun s o).1.eventListeners = s.eventListeners := by
  unfold connectRun
  cases hcs : connectStart s with
  | mk s1 r =>
    have h1 : s1.eventListeners = s.eventListeners := by
      have := connectStart_eventListeners s
      rw [hcs] at this
      exact this
    cases r <;> cases o <;>
      simp [handshakeSuccess_eventListeners, handshakeFailure_eventListeners,
        handshakeTimeout_eventListeners, h1]

theorem timerFire_outbound (s : ClientState) (o : HandshakeOutcome) :
    (timerFire s o).outbound = s.outbound := by
  unfold timerFire
  cases h : s.reconnectTimer with
  | none => rfl
  | some d => simp [connectRun_outbound]

theorem timerFire_jwtToken (s : ClientState) (o : HandshakeOutcome) :
    (timerFire s o).jwtToken = s.jwtToken := by
  unfold timerFire
  cases h : s.reconnectTimer with
  | none => rfl
  | some d => simp [connectRun_jwtToken]

theorem timerFire_eventListeners (s : ClientState) (o : HandshakeOutcome) :
    (timerFire s o).eventListeners = s.eventListeners := by
  unfold timerFire
  cases h : s.reconnectTimer with
  | none => rfl
  | some d => simp [connectRun_eventListeners]

/-- Invariant: a client that holds a socket handle also holds a JWT token
(the only code path that creates a socket first checks the token, and the
token is never cleared). -/
def tokenOk (s : ClientState) : Prop := s.socket.isSome → s.jwtToken.isSome

theorem tokenOk_initState (cfg : WSConfig) (tok : Option String) :
    tokenOk (initState cfg tok) := by
  intro hs
  simp [initState] at hs

theorem tokenOk_setToken (s : ClientState) (t : String) :
    tokenOk (setToken s t) := by
  intro _
  simp [setToken]

theorem tokenOk_connectRun (s : ClientState) (o : HandshakeOutcome)
    (h : tokenOk s) : tokenOk (connectRun s o).1 := by
  unfold connectRun connectStart
  by_cases hc : socketConnected s
  · simp [hc]
    exact h
  · cases ht : s.jwtToken with
    | none =>
        simp [hc, ht]
        exact h
    | some t =>
        simp [hc, ht]
        cases o <;> intro _
        · rw [handshakeSuccess_jwtToken]
          simp [ht]
        · rw [handshakeFailure_jwtToken]
          simp [ht]
        · rw [handshakeTimeout_jwtToken]
          simp [ht]

theorem tokenOk_disconnect (s : ClientState) : tokenOk (disconnect s) := by
  intro hs
  rw [disconnect_socket] at hs
  simp at hs

theorem tokenOk_onDisconnectEvent (s : ClientState) (h : tokenOk s) :
    tokenOk (onDisconnectEvent s) := by
  intro hs
  rw [onDisconnectEvent_jwtToken]
  apply h
  rw [onDisconnectEvent_socket] at hs
  simpa using hs

theorem tokenOk_timerFire (s : ClientState) (o : HandshakeOutcome)
    (h : tokenOk s) : tokenOk (timerFire s o) := by
  unfold timerFire
  cases hrt : s.reconnectTimer with
  | none => exact h
  | some d =>
      dsimp only
      apply tokenOk_connectRun
      intro hs
      exact h hs

theorem tokenOk_subscribe (s : ClientState) (p : SubscribeEvent)
    (h : tokenOk s) : tokenOk (subscribe s p).1 := by
  unfold subscribe
  split <;> exact fun hs => h hs

theorem tokenOk_unsubscribe (s : ClientState) (p : SubscribeEvent)
    (h : tokenOk s) : tokenOk (unsubscribe s p).1 := by
  unfold unsubscribe
  split <;> exact fun hs => h hs

theorem tokenOk_onEvent (s : ClientState) (e : String) (l : Nat)
    (h : tokenOk s) : tokenOk (onEvent s e l) :=
  fun hs => h hs

theorem tokenOk_offEvent (s : ClientState) (e : String) (l : Nat)
    (h : tokenOk s) : tokenOk (offEvent s e l) :=
  fun hs => h hs

theorem tokenOk_removeAllListeners (s : ClientState) (e : Option String)
    (h : tokenOk s) : tokenOk (removeAllListeners s e) := by
  unfold removeAllListeners
  cases e <;> exact fun hs => h hs

/-- Every reachable client state satisfies the token invariant. -/
theorem reachable_tokenOk {s : ClientState} (h : Reachable s) : tokenOk s := by
  induction h with
  | init cfg tok => exact tokenOk_initState cfg tok
  | setTok s t _ _ => exact tokenOk_setToken s t
  | conn s o _ ih => exact tokenOk_connectRun s o ih
  | disc s _ _ => exact tokenOk_disconnect s
  | closeEvt s _ ih => exact tokenOk_onDisconnectEvent s ih
  | timer s o _ ih => exact tokenOk_timerFire s o ih
  | sub s p _ ih => exact tokenOk_subscribe s p ih
  | unsub s p _ ih => exact tokenOk_unsubscribe s p ih
  | onL s e l _ ih => exact tokenOk_onEvent s e l ih
  | offL s e l _ ih => exact tokenOk_offEvent s e l ih
  | remAll s e _ ih => exact tokenOk_removeAllListeners s e ih

theorem lookupListeners_setReg (reg : List (String × List Nat)) (e : String)
    (ls : List Nat) : lookupListeners (setReg reg e ls) e = ls := by
  induction reg with
  | nil => simp [setReg, lookupListeners]
  | cons p rest ih =>
      obtain ⟨k, v⟩ := p
      by_cases h : k = e
      · simp [setReg, h, lookupListeners]
      · simp [setReg, h, lookupListeners, ih]

theorem setReg_setReg (reg : List (String × List Nat)) (e : String)
    (ls ms : List Nat) : setReg (setReg reg e ls) e ms = setReg reg e ms := by
  induction reg with
  | nil => simp [setReg]
  | cons p rest ih =>
      obtain ⟨k, v⟩ := p
      by_cases h : k = e
      · simp [setReg, h]
      · simp [setReg, h, ih]

theorem foldl_dispatchStep (behav : Nat → Bool) (ls : List Nat)
    (acc : List Nat × List String) :
    (ls.foldl (dispatchStep behav) acc).1 = acc.1 ++ ls := by
  induction ls generalizing acc with
  | nil => simp
  | cons x xs ih =>
      rw [List.foldl_cons, ih]
      unfold dispatchStep runListener
      cases hb : behav x <;> simp

/-- The invoked-listener list of one dispatch is exactly the registered
listener list, regardless of which listeners throw. -/
theorem emitToListenersRun_invoked (behav : Nat → Bool)
    (reg : List (String × List Nat)) (e : String) :
    (emitToListenersRun behav reg e).1 = lookupListeners reg e := by
  unfold emitToListenersRun
  rw [foldl_dispatchStep]
  simp

theorem addListener_not_mem (reg : List (String × List Nat)) (e : String)
    (l : Nat) (h : l ∉ lookupListeners reg e) :
    addListener reg e l = setReg reg e (lookupListeners reg e ++ [l]) := by
  unfold addListener
  simp [h]

theorem addListener_idem (reg : List (String × List Nat)) (e : String)
    (l : Nat) (h : l ∉ lookupListeners reg e) :
    addListener (addListener reg e l) e l = addListener reg e l := by
  rw [addListener_not_mem reg e l h]
  unfold addListener
  rw [lookupListeners_setReg]
  simp [setReg_setReg]

/-- Claim C1, counterexample. In the replay scenario of spec property P5
(connect, `subscribe({userId: "u1"})`, transport close, successful scheduled
reconnect) the client ends up `connected` again, but the outbound
`subscribe` message for `u1` appears exactly once in the outbound log: it
is NOT sent again on reconnect, contradicting the claimed automatic replay. -/
theorem reconnect_does_not_resend_subscribe_cex :
    replayScenario.connectionState = ConnectionState.connected ∧
    replayScenario.outbound.count
      (OutMsg.subscribeMsg { userId := "u1", emailAddress := none }) = 1 ∧
    ¬ 2 ≤ replayScenario.outbound.count
      (OutMsg.subscribeMsg { userId := "u1", emailAddress := none }) := by
  decide

/-- Claim C1, amended. The client stores no subscription descriptor, and no
connect, reconnect-timer or disconnect-event path ever emits an outbound
message: after a transport close and successful reconnect the consumer must
call `subscribe` again itself (as the helper `connectToEmailTriage` does). -/
theorem connect_paths_preserve_outbound (s : ClientState) (o : HandshakeOutcome) :
    (connectRun s o).1.outbound = s.outbound ∧
    (timerFire s o).outbound = s.outbound ∧
    (onDisconnectEvent s).outbound = s.outbound :=
  ⟨connectRun_outbound s o, timerFire_outbound s o, onDisconnectEvent_outbound s⟩

/-- Claim C2, counterexample. With the first `connect()` still in flight
(state `connecting`, handshake unresolved), a second `connect()` call opens
a second transport: the transport-open count goes from 1 to 2, because the
guard in `connect()` only checks `socket?.connected`. -/
theorem second_connect_while_connecting_cex :
    firstConnecting.connectionState = ConnectionState.connecting ∧
    firstConnecting.openCount = 1 ∧
    (connectStart firstConnecting).1.openCount = 2 := by
  decide

/-- Claim C2, amended. A repeated `connect()` is a no-op only when the
socket is already connected; while a handshake is still pending
(`connecting`, socket present but not yet connected) a second `connect()`
call does open one more transport. -/
theorem connect_dedup_only_when_connected :
    (∀ s : ClientState, socketConnected s = true →
      connectStart s = (s, ConnectResult.alreadyConnected)) ∧
    (∀ (s : ClientState) (t : String),
      s.connectionState = ConnectionState.connecting →
      socketConnected s = false → s.jwtToken = some t →
      (connectStart s).1.openCount = s.openCount + 1) := by
  constructor
  · intro s h
    unfold connectStart
    simp [h]
  · intro s t _ hs ht
    unfold connectStart
    simp [hs, ht]

/-- Witness for the amended C2 theorem: both conjuncts applied at concrete
reachable states, with every hypothesis discharged by evaluation. -/
theorem connect_dedup_only_when_connected_witness :
    (socketConnected (connectedClient DEFAULT_CONFIG "tok") = true ∧
      connectStart (connectedClient DEFAULT_CONFIG "tok")
        = (connectedClient DEFAULT_CONFIG "tok", ConnectResult.alreadyConnected)) ∧
    (firstConnecting.connectionState = ConnectionState.connecting ∧
      socketConnected firstConnecting = false ∧
      firstConnecting.jwtToken = some "tok" ∧
      (connectStart firstConnecting).1.openCount = firstConnecting.openCount + 1) := by
  refine ⟨⟨by decide, ?_⟩, ⟨by decide, by decide, by decide, ?_⟩⟩
  · exact connect_dedup_only_when_connected.1 (connectedClient DEFAULT_CONFIG "tok")
      (by decide)
  · exact connect_dedup_only_when_connected.2 firstConnecting "tok"
      (by decide) (by decide) (by decide)

/-- Claim C3, counterexample. In the default-configuration exhaustion trace
(transport close, then 5 scheduled reconnect attempts all failing with
`connect_error`), it is false that no further attempt is pending AND
`max_reconnect_reached` was dispatched exactly once: the event is in fact
dispatched twice, because each failed attempt runs `scheduleReconnect` both
from the `connect_error` handler and from the `catch` block of `connect()`. -/
theorem max_reconnect_reached_not_once_cex :
    ¬ ((capTrace DEFAULT_CONFIG "tok" 5).reconnectTimer = none ∧
       (capTrace DEFAULT_CONFIG "tok" 5).emitted.count "max_reconnect_reached" = 1) := by
  decide

/-- Claim C3, amended. After 5 failed scheduled reconnect attempts with the
default cap of 5: exactly 5 attempts fired, no 6th reconnect timer is
pending, firing is a no-op from here on, and the `max_reconnect_reached`
lifecycle event was dispatched exactly twice (once per `scheduleReconnect`
call at the cap: the `connect_error` handler and the `catch` of
`connect()`). -/
theorem reconnect_cap_stops_and_emits_twice :
    (capTrace DEFAULT_CONFIG "tok" 5).attemptDelays.length = 5 ∧
    (capTrace DEFAULT_CONFIG "tok" 5).reconnectTimer = none ∧
    timerFire (capTrace DEFAULT_CONFIG "tok" 5) HandshakeOutcome.failure
      = capTrace DEFAULT_CONFIG "tok" 5 ∧
    (capTrace DEFAULT_CONFIG "tok" 5).emitted.count "max_reconnect_reached" = 2 := by
  decide

/-- Claim C4. Linear backoff: in the concrete exhaustion trace with base
interval 1000 the delays of the 5 fired reconnect timers are exactly
1000, 2000, 3000, 4000, 5000; and in general, whenever `scheduleReconnect`
schedules (attempt counter below the cap), the scheduled delay is
`reconnectInterval * (reconnectAttempts + 1)`, i.e. base * N for the Nth
attempt (the counter is incremented only when the timer fires). -/
theorem backoff_linear :
    (capTrace { DEFAULT_CONFIG with reconnectInterval := 1000 } "tok" 5).attemptDelays
      = [1000, 2000, 3000, 4000, 5000] ∧
    ∀ s : ClientState, s.reconnectAttempts < s.config.maxReconnectAttempts →
      (scheduleReconnect s).reconnectTimer
        = some (s.config.reconnectInterval * (s.reconnectAttempts + 1)) := by
  constructor
  · decide
  · intro s h
    unfold scheduleReconnect clearReconnectTimer
    rw [if_neg (Nat.not_le.mpr h)]

/-- Witness for C4: the general backoff formula applied at a concrete state
below the cap. -/
theorem backoff_linear_witness :
    (initState DEFAULT_CONFIG none).reconnectAttempts
      < (initState DEFAULT_CONFIG none).config.maxReconnectAttempts ∧
    (scheduleReconnect (initState DEFAULT_CONFIG none)).reconnectTimer
      = some 3000 := by
  refine ⟨by decide, ?_⟩
  have h := backoff_linear.2 (initState DEFAULT_CONFIG none) (by decide)
  simpa using h

/-- Claim C5. After `disconnect()` (with no further `connect()`), a
transport close event arriving afterwards never schedules a reconnect: the
state stays `disconnected`, the attempt counter stays 0, and no reconnect
timer is pending — the manual-disconnect flag set by `disconnect()`
suppresses the auto-reconnect branch of the close handler. -/
theorem manual_disconnect_suppresses_reconnect (s : ClientState) :
    (onDisconnectEvent (disconnect s)).connectionState
      = ConnectionState.disconnected ∧
    (onDisconnectEvent (disconnect s)).reconnectAttempts = 0 ∧
    (onDisconnectEvent (disconnect s)).reconnectTimer = none := by
  unfold onDisconnectEvent recordEmit
  dsimp only
  rw [disconnect_isManualDisconnect]
  simp [disconnect_connectionState, disconnect_reconnectAttempts,
    disconnect_reconnectTimer]

/-- Claim C6. For every reachable client with no JWT token, `connect()`
fails immediately with the authentication-required error, leaves the whole
state (hence the connection state and the transport-open count) unchanged,
and performs no transport attempt, whatever the would-be handshake outcome. -/
theorem connect_without_token_fails (s : ClientState) (o : HandshakeOutcome)
    (hr : Reachable s) (h : s.jwtToken = none) :
    connectRun s o = (s, some ConnectError.authRequired) := by
  have hok := reachable_tokenOk hr
  have hsock : s.socket = none := by
    cases hs : s.socket with
    | none => rfl
    | some sh =>
        have hi := hok (by simp [hs])
        rw [h] at hi
        simp at hi
  have hc : socketConnected s = false := by
    simp [socketConnected, hsock]
  unfold connectRun connectStart
  simp [hc, h]

/-- Witness for C6: a freshly constructed client with no stored token. -/
theorem connect_without_token_fails_witness :
    (initState DEFAULT_CONFIG none).jwtToken = none ∧
    connectRun (initState DEFAULT_CONFIG none) HandshakeOutcome.success
      = (initState DEFAULT_CONFIG none, some ConnectError.authRequired) :=
  ⟨rfl, connect_without_token_fails (initState DEFAULT_CONFIG none)
    HandshakeOutcome.success (Reachable.init DEFAULT_CONFIG none) rfl⟩

/-- Claim C7. Listener isolation: whatever subset of the registered
listeners throws, dispatching an event invokes every registered listener of
that event type, in registration order, and the dispatch returns an
ordinary value (the per-listener try/catch means no exception escapes into
the receive loop). -/
theorem listener_isolation (reg : List (String × List Nat)) (e : String)
    (behav : Nat → Bool) :
    (emitToListenersRun behav reg e).1 = lookupListeners reg e :=
  emitToListenersRun_invoked behav reg e

/-- Claim C8. The singleton factory: any call made while an instance exists
returns exactly that instance and leaves it in place; and after a first
call with `cfg1`, a second call — with any config and any stored token —
returns the client built from `cfg1`, whose configuration is `cfg1` merged
with the defaults (the later config argument has no effect). -/
theorem getWebSocketClient_singleton :
    (∀ (c : ClientState) (cfg : WebSocketConfigOpt) (tok : Option String),
      getWebSocketClient (some c) cfg tok = (c, some c)) ∧
    (∀ (cfg1 cfg2 : WebSocketConfigOpt) (tok1 tok2 : Option String),
      (getWebSocketClient (getWebSocketClient none cfg1 tok1).2 cfg2 tok2).1
        = (getWebSocketClient none cfg1 tok1).1 ∧
      (getWebSocketClient (getWebSocketClient none cfg1 tok1).2 cfg2 tok2).1.config
        = mergeConfig cfg1) :=
  ⟨fun _ _ _ => rfl, fun _ _ _ _ => ⟨rfl, rfl⟩⟩

/-- Claim C9. Frame of `disconnect()`: the listener registry and the stored
JWT token are untouched, while the socket handle is nulled, the pending
reconnect timer is cancelled, the state becomes `disconnected` and the
reconnect attempt counter resets to 0. -/
theorem disconnect_frame (s : ClientState) :
    (disconnect s).eventListeners = s.eventListeners ∧
    (disconnect s).jwtToken = s.jwtToken ∧
    (disconnect s).socket = none ∧
    (disconnect s).reconnectTimer = none ∧
    (disconnect s).connectionState = ConnectionState.disconnected ∧
    (disconnect s).reconnectAttempts = 0 :=
  ⟨disconnect_eventListeners s, disconnect_jwtToken s, disconnect_socket s,
    disconnect_reconnectTimer s, disconnect_connectionState s,
    disconnect_reconnectAttempts s⟩

/-- Claim C10. Registering the same listener twice on the same event type
is idempotent (the `Set`-backed registry stores it once), so a dispatch of
that event invokes the listener exactly once, whatever the other listeners
and throw behaviour. -/
theorem on_idempotent (reg : List (String × List Nat)) (e : String) (l : Nat)
    (behav : Nat → Bool) (h : l ∉ lookupListeners reg e) :
    addListener (addListener reg e l) e l = addListener reg e l ∧
    (emitToListenersRun behav (addListener (addListener reg e l) e l) e).1.count l
      = 1 := by
  refine ⟨addListener_idem reg e l h, ?_⟩
  rw [addListener_idem reg e l h, emitToListenersRun_invoked,
    addListener_not_mem reg e l h, lookupListeners_setReg]
  simp [List.count_append, List.count_eq_zero_of_not_mem h]

/-- Witness for C10: a fresh registry, the listener registered twice on
`triage.completed`, dispatched with the listener itself throwing. -/
theorem on_idempotent_witness :
    (7 : Nat) ∉ lookupListeners [] "triage.completed" ∧
    addListener (addListener [] "triage.completed" 7) "triage.completed" 7
      = addListener [] "triage.completed" 7 ∧
    (emitToListenersRun (fun _ => true)
      (addListener (addListener [] "triage.completed" 7) "triage.completed" 7)
      "triage.completed").1.count 7 = 1 := by
  refine ⟨by decide, ?_, ?_⟩
  · exact (on_idempotent [] "triage.completed" 7 (fun _ => true) (by decide)).1
  · exact (on_idempotent [] "triage.completed" 7 (fun _ => true) (by decide)).2

end WSClient
